import Mathlib

/-!
Shallow embedding of the Twickets ticket monitor (src/oasis_py.py) and
verification of its change-detection, subscription and notification logic.

External collaborators are modelled as explicit inputs:
the HTTP fetch and HTML parse become a `FetchOutcome` value describing the
page structure that `check_tickets` inspects; `hashlib.md5(...).hexdigest()`
becomes a function parameter `hash : String → String` (no claim depends on
the digest function itself); SMTP delivery becomes a `deliver` predicate
telling for each recipient address whether the send raises.
-/

namespace Oasis

/-- One `div.listing` element of the fetched page.  `details` is the text of
the `listingSeatDetails` element when that element exists and its extraction
does not raise (the code skips the listing otherwise); `price` is the text of
the `span.price` element when present. -/
structure RawListing where
  details : Option String
  price : Option String
deriving DecidableEq

/-- The structure of a successfully fetched page, as `check_tickets` probes it:
whether `soup.find(id="list")` is truthy, the `style` attribute of the
`no-listings-found` element when that element exists (a missing attribute is
the empty string, mirroring `get('style', '')`), and the `div.listing`
elements found inside the list container. -/
structure Page where
  hasListContainer : Bool
  noListingsFound : Option String
  listings : List RawListing
deriving DecidableEq

/-- Outcome of `self.session.get` + parsing in `check_tickets`:
a `requests.RequestException` (caught at line 237), any other exception
(caught at line 240), or a parsed page. -/
inductive FetchOutcome where
  | requestError
  | otherError
  | page (p : Page)
deriving DecidableEq

/-- A parsed ticket `{'id': ..., 'text': ..., 'price': ...}`. -/
structure Ticket where
  id : String
  text : String
  price : String
deriving DecidableEq

/-- Per-listing extraction inside the `for listing in listing_elements` loop:
skip when the details element is missing (or extraction raised), otherwise
id is the digest of the details text and a missing price element yields
"Price not found". -/
def parseListing (hash : String → String) (r : RawListing) : Option Ticket :=
  match r.details with
  | none => none
  | some d => some ⟨hash d, d, r.price.getD "Price not found"⟩

/-- Python's `pat in s` on strings: `pat` occurs as a contiguous substring. -/
def strContains (s pat : String) : Bool :=
  (List.range (s.toList.length + 1)).any
    (fun i => pat.toList.isPrefixOf (s.toList.drop i))

/-- The condition `no_listings_found and 'display: none' not in
no_listings_found.get('style', '')` of line 201. -/
def noListingsVisible (p : Page) : Bool :=
  match p.noListingsFound with
  | none => false
  | some style => !(strContains style "display: none")

/-- The `current_tickets` list built by the extraction loop. -/
def currentTickets (hash : String → String) (p : Page) : List Ticket :=
  p.listings.filterMap (parseListing hash)

/-- The set `current_ticket_ids` of line 224. -/
def currentIds (hash : String → String) (p : Page) : Finset String :=
  ((currentTickets hash p).map Ticket.id).toFinset

/-- `TwicketsMonitor.check_tickets` (lines 192-242) as a state transformer on
`known_tickets`: given the fetch outcome it returns the list the Python
function returns together with the new value of `self.known_tickets`. -/
def checkTickets (hash : String → String) (known : Finset String) :
    FetchOutcome → List Ticket × Finset String
  | .requestError => ([], known)
  | .otherError => ([], known)
  | .page p =>
    if !p.hasListContainer || noListingsVisible p then
      ([], ∅)
    else if p.listings.isEmpty then
      ([], ∅)
    else
      let cur := currentTickets hash p
      if cur.isEmpty then
        ([], ∅)
      else
        let curIds := (cur.map Ticket.id).toFinset
        if known = ∅ then
          ([], curIds)
        else
          let newIds := curIds \ known
          if newIds = ∅ then
            ([], known ∩ curIds)
          else
            (cur.filter (fun t => decide (t.id ∈ newIds)), known ∪ newIds)

/-- A record of `subscribers.json`: `{'email': ..., 'name': ...,
'subscribed_at': ...}`. -/
structure Subscriber where
  email : String
  name : String
  subscribedAt : String
deriving DecidableEq

/-- Python's `str.lower()`: per-character lowercasing (ASCII suffices for
the addresses these claims touch). -/
def pyLower (s : String) : String :=
  ⟨s.data.map Char.toLower⟩

/-- Python's `str.strip()`: drop leading and trailing whitespace. -/
def pyStrip (s : String) : String :=
  ⟨((s.data.dropWhile Char.isWhitespace).reverse.dropWhile
      Char.isWhitespace).reverse⟩

/-- The normalisation `email.lower().strip()` applied by `add_subscriber`
(line 72) and `remove_subscriber` (line 163). -/
def normalizeEmail (email : String) : String :=
  pyStrip (pyLower email)

/-- `TwicketsMonitor.add_subscriber` (lines 70-85) as a transformer of the
in-memory subscriber list; `now` stands for `datetime.now().isoformat()`.
Returns the new list together with the `(bool, message)` pair the Python
function returns.  (Persistence and the one-off welcome check are side
effects modelled separately.) -/
def addSubscriber (subs : List Subscriber) (email name now : String) :
    List Subscriber × Bool × String :=
  let e := normalizeEmail email
  if subs.any (fun s => s.email = e) then
    (subs, false, "Email already subscribed")
  else
    (subs ++ [⟨e, name, now⟩], true, "Successfully subscribed!")

/-- The `recipients` list computed in `send_email_notifications`
(lines 288-292): when `exclude_admin` and a truthy `admin_email` are given,
subscribers whose `email.lower()` equals `admin_email.lower()` are filtered
out; otherwise all subscribers are recipients. -/
def sendRecipients (subs : List Subscriber) (adminEmail : Option String)
    (excludeAdmin : Bool) : List Subscriber :=
  match excludeAdmin, adminEmail with
  | true, some a =>
    if a = "" then subs
    else subs.filter (fun s => pyLower s.email != pyLower a)
  | _, _ => subs

/-- The `for subscriber in recipients` loop of lines 301-350: each send is
attempted in order; `deliver r` tells whether the SMTP send to address `r`
succeeds (an exception is caught, counted as failed, and the loop
continues).  Returns the ordered list of attempts `(email, succeeded)`
together with the final `(successful_sends, failed_sends)` counters. -/
def sendLoop (deliver : String → Bool) :
    List Subscriber → Nat → Nat → List (String × Bool) × Nat × Nat
  | [], ok, bad => ([], ok, bad)
  | r :: rest, ok, bad =>
    if deliver r.email then
      let (tr, a, b) := sendLoop deliver rest (ok + 1) bad
      ((r.email, true) :: tr, a, b)
    else
      let (tr, a, b) := sendLoop deliver rest ok (bad + 1)
      ((r.email, false) :: tr, a, b)

/-- `TwicketsMonitor.send_email_notifications` (lines 282-353).  The first
component is the ordered trace of attempted sends; the second is the return
value: `none` for the early `return` (no subscribers, or nobody left after
the admin exclusion), otherwise `some (successful_sends, failed_sends)`. -/
def sendEmailNotifications (subs : List Subscriber) (adminEmail : Option String)
    (excludeAdmin : Bool) (deliver : String → Bool) :
    List (String × Bool) × Option (Nat × Nat) :=
  if subs.isEmpty then ([], none)
  else
    let recipients := sendRecipients subs adminEmail excludeAdmin
    if recipients.isEmpty then ([], none)
    else
      let (tr, ok, bad) := sendLoop deliver recipients 0 0
      (tr, some (ok, bad))

/-- Observable notification-side actions of one `monitor_loop` cycle. -/
inductive Event where
  | adminSend (email : String) (ok : Bool)
  | sleep (seconds : Nat)
  | send (email : String) (ok : Bool)
deriving DecidableEq

/-- The notification part of the `if new_tickets:` block of `monitor_loop`
(lines 370-377): with first dibs enabled and a truthy admin email, the admin
send is attempted (`send_admin_first_dibs_notification`, whose own failures
are caught), then `time.sleep(self.first_dibs_delay)`, then
`send_email_notifications(new_tickets, exclude_admin=True)`; otherwise a
plain `send_email_notifications(new_tickets, exclude_admin=False)`. -/
def notifyEvents (subs : List Subscriber) (adminEmail : Option String)
    (firstDibs : Bool) (delay : Nat) (deliver : String → Bool) : List Event :=
  match firstDibs, adminEmail with
  | true, some a =>
    if a = "" then
      (sendEmailNotifications subs (some a) false deliver).1.map
        (fun q => Event.send q.1 q.2)
    else
      Event.adminSend a (deliver a) :: Event.sleep delay ::
        (sendEmailNotifications subs (some a) true deliver).1.map
          (fun q => Event.send q.1 q.2)
  | _, _ =>
    (sendEmailNotifications subs adminEmail false deliver).1.map
      (fun q => Event.send q.1 q.2)

/-- State and observables produced by one iteration of the `while` loop in
`monitor_loop`. -/
structure CycleResult where
  known : Finset String
  events : List Event
  totalChecks : Nat
  ticketsFound : Nat
deriving DecidableEq

/-- One iteration of the `monitor_loop` cycle body (lines 362-385):
`check_tickets`, `total_checks += 1`, and — only when `new_tickets` is
non-empty — the `tickets_found` increment and the notification block. -/
def monitorCycle (hash : String → String) (known : Finset String)
    (o : FetchOutcome) (subs : List Subscriber) (adminEmail : Option String)
    (firstDibs : Bool) (delay : Nat) (deliver : String → Bool)
    (totalChecks ticketsFound : Nat) : CycleResult :=
  let (newTickets, known') := checkTickets hash known o
  { known := known'
    events :=
      if newTickets.isEmpty then []
      else notifyEvents subs adminEmail firstDibs delay deliver
    totalChecks := totalChecks + 1
    ticketsFound :=
      if newTickets.isEmpty then ticketsFound
      else ticketsFound + newTickets.length }

/-- `TwicketsMonitor.notify_new_subscriber_of_current_tickets` (lines 87-99):
it calls `self.check_tickets()` — the same method the monitor loop uses, on
the same `self.known_tickets` — and sends the welcome-with-tickets email
exactly when the returned list is non-empty.  First component: the value of
`self.known_tickets` after the call; second: whether the
welcome-with-tickets email send was attempted. -/
def notifyNewSubscriberOfCurrentTickets (hash : String → String)
    (known : Finset String) (o : FetchOutcome) (deliver : String → Bool)
    (email : String) : Finset String × Bool :=
  let (cur, known') := checkTickets hash known o
  if cur.isEmpty then (known', false) else (known', deliver email)

/-- Splitting of a character list on a separator (Python's `str.split`). -/
def splitOnChar (c : Char) : List Char → List (List Char)
  | [] => [[]]
  | x :: xs =>
    if x = c then [] :: splitOnChar c xs
    else
      match splitOnChar c xs with
      | [] => [[x]]
      | h :: t => (x :: h) :: t

/-- Modelled from the spec: the "basic `local@domain.tld` syntactic check"
that §4.4 says `add(email, name)` performs — one `@`, a non-empty local
part, and a domain of at least two non-empty dot-separated labels.  No such
check exists anywhere in src/oasis_py.py; this definition follows the spec
words only, in order to state claim C8 against the code. -/
def basicEmailFormatOk (email : String) : Bool :=
  match splitOnChar '@' email.data with
  | [loc, domain] =>
    !loc.isEmpty &&
      (let parts := splitOnChar '.' domain
       decide (2 ≤ parts.length) && parts.all (fun q => !q.isEmpty))
  | _ => false

/-! Helper lemmas. -/

/-- A page whose extraction loop yields at least one ticket has a non-empty
`listing_elements` list. -/
theorem listings_ne_nil_of_currentTickets (hash : String → String) (p : Page)
    (hc : currentTickets hash p ≠ []) : p.listings ≠ [] := by
  intro h
  apply hc
  simp [currentTickets, h]

/-- Evaluation of `check_tickets` on a structurally sound page once the
diff code (lines 224-236) is reached with a non-empty known-set. -/
theorem checkTickets_page_diff (hash : String → String) (known : Finset String)
    (p : Page) (hs : p.hasListContainer = true)
    (hn : noListingsVisible p = false)
    (hc : currentTickets hash p ≠ []) (hk : known ≠ ∅) :
    checkTickets hash known (.page p) =
      if currentIds hash p \ known = ∅ then
        ([], known ∩ currentIds hash p)
      else
        ((currentTickets hash p).filter
            (fun t => decide (t.id ∈ currentIds hash p \ known)),
          known ∪ (currentIds hash p \ known)) := by
  have hl := listings_ne_nil_of_currentTickets hash p hc
  simp only [checkTickets, hs, hn, Bool.not_true, Bool.false_or, if_neg,
    List.isEmpty_iff, hl, if_false, hc, hk, currentIds]
  simp

/-- Evaluation of `check_tickets` on a structurally sound page when the
baseline branch (lines 225-227) fires. -/
theorem checkTickets_page_baseline (hash : String → String) (p : Page)
    (hs : p.hasListContainer = true) (hn : noListingsVisible p = false)
    (hc : currentTickets hash p ≠ []) :
    checkTickets hash (∅ : Finset String) (.page p) = ([], currentIds hash p) := by
  have hl := listings_ne_nil_of_currentTickets hash p hc
  simp only [checkTickets, hs, hn, Bool.not_true, Bool.false_or,
    List.isEmpty_iff, hl, hc, currentIds, if_false, if_true, if_pos rfl]
  simp

/-- Unfolded form of `sendLoop`: it attempts every recipient exactly once,
in order, and adds one success or one failure per recipient to the counters
it was given. -/
theorem sendLoop_spec (deliver : String → Bool) (l : List Subscriber)
    (ok bad : Nat) :
    sendLoop deliver l ok bad =
      (l.map (fun s => (s.email, deliver s.email)),
        ok + l.countP (fun s => deliver s.email),
        bad + l.countP (fun s => !deliver s.email)) := by
  induction l generalizing ok bad with
  | nil => simp [sendLoop]
  | cons r rest ih =>
    by_cases hd : deliver r.email
    · simp [sendLoop, hd, ih, List.countP_cons]
      omega
    · simp [sendLoop, hd, ih, List.countP_cons]
      omega

/-- The recipient computation yields nothing from no subscribers. -/
theorem sendRecipients_nil (adminEmail : Option String) (excludeAdmin : Bool) :
    sendRecipients [] adminEmail excludeAdmin = [] := by
  unfold sendRecipients
  cases excludeAdmin <;> cases adminEmail <;> simp

/-- The trace of `send_email_notifications` is exactly one attempt per
computed recipient, in order, also through both early returns. -/
theorem sendEmailNotifications_trace (subs : List Subscriber)
    (adminEmail : Option String) (excludeAdmin : Bool)
    (deliver : String → Bool) :
    (sendEmailNotifications subs adminEmail excludeAdmin deliver).1 =
      (sendRecipients subs adminEmail excludeAdmin).map
        (fun s => (s.email, deliver s.email)) := by
  by_cases hsubs : subs.isEmpty
  · rw [List.isEmpty_iff] at hsubs
    subst hsubs
    simp [sendEmailNotifications, sendRecipients_nil]
  · by_cases hrec : (sendRecipients subs adminEmail excludeAdmin).isEmpty
    · rw [List.isEmpty_iff] at hrec
      simp [sendEmailNotifications, hsubs, hrec]
    · simp [sendEmailNotifications, hsubs, hrec, sendLoop_spec]

/-- Every early-reset path of `check_tickets` on a fetched page (missing list
container, visible no-listings marker, no listing elements, or no parseable
listing) returns the empty list and clears `known_tickets` (lines 201-223). -/
theorem checkTickets_page_reset (hash : String → String) (known : Finset String)
    (p : Page)
    (h : p.hasListContainer = false ∨ noListingsVisible p = true ∨
      p.listings = [] ∨ currentTickets hash p = []) :
    checkTickets hash known (.page p) = ([], ∅) := by
  have hcur : currentTickets hash p = [] ∨ p.hasListContainer = false ∨
      noListingsVisible p = true := by
    rcases h with h | h | h | h
    · exact Or.inr (Or.inl h)
    · exact Or.inr (Or.inr h)
    · exact Or.inl (by simp [currentTickets, h])
    · exact Or.inl h
  rcases hcur with h | h | h
  · simp only [checkTickets]
    split_ifs <;> simp_all
  · simp [checkTickets, h]
  · simp [checkTickets, h]

/-! Claims. -/

/-- Claim C1 (corrected).  For a successful non-baseline check with prior
known-set `K` (non-empty) and non-empty current id-set `C`, `check_tickets`
leaves the known-set equal to `C` only when `C ⊆ K` (no new ids); when new
ids exist the code runs `known_tickets.update(new_ticket_ids)` without
intersecting with `C`, so the resulting known-set is `K ∪ C`, which keeps
ids no longer present. -/
theorem knownSet_after_diff_check (hash : String → String)
    (known : Finset String) (p : Page) (hs : p.hasListContainer = true)
    (hn : noListingsVisible p = false) (hc : currentTickets hash p ≠ [])
    (hk : known ≠ ∅) :
    (checkTickets hash known (.page p)).2 =
      if currentIds hash p ⊆ known then currentIds hash p
      else known ∪ currentIds hash p := by
  rw [checkTickets_page_diff hash known p hs hn hc hk]
  by_cases hsub : currentIds hash p ⊆ known
  · rw [if_pos (Finset.sdiff_eq_empty_iff_subset.mpr hsub), if_pos hsub]
    simp [Finset.inter_eq_right.mpr hsub]
  · rw [if_neg (fun h => hsub (Finset.sdiff_eq_empty_iff_subset.mp h)),
      if_neg hsub]
    simp [Finset.union_sdiff_self_eq_union]

/-- Witness for `knownSet_after_diff_check` at a concrete input. -/
theorem knownSet_after_diff_check_witness :
    (checkTickets (fun s => s) {"a"}
        (.page ⟨true, none, [⟨some "b", none⟩]⟩)).2 =
      if currentIds (fun s => s) ⟨true, none, [⟨some "b", none⟩]⟩ ⊆ {"a"} then
        currentIds (fun s => s) ⟨true, none, [⟨some "b", none⟩]⟩
      else {"a"} ∪ currentIds (fun s => s) ⟨true, none, [⟨some "b", none⟩]⟩ :=
  knownSet_after_diff_check (fun s => s) {"a"}
    ⟨true, none, [⟨some "b", none⟩]⟩ rfl rfl (by decide) (by decide)

/-- Counterexample to claim C1 as stated: prior known-set `{"a"}` (non-empty),
current set `{"b"}` (non-empty), successful non-baseline check — yet the
known-set afterwards is `{"a", "b"}`, not the current set. -/
theorem knownSet_equals_current_counterexample :
    ({"a"} : Finset String) ≠ ∅ ∧
    currentTickets (fun s => s) ⟨true, none, [⟨some "b", none⟩]⟩ ≠ [] ∧
    (checkTickets (fun s => s) {"a"}
        (.page ⟨true, none, [⟨some "b", none⟩]⟩)).2 = {"a", "b"} ∧
    ({"a", "b"} : Finset String) ≠
      currentIds (fun s => s) ⟨true, none, [⟨some "b", none⟩]⟩ := by decide

/-- Claim C5 (corrected).  A request exception or any other exception during
fetch/parse leaves `known_tickets` unchanged and returns the empty list; but
a structurally malformed page of any of the early-exit shapes — missing list
container, visible no-listings marker, no listing elements, or no parseable
listing — is not treated that way: it resets the known-set to empty instead
of preserving it. -/
theorem fetch_failure_policy (hash : String → String) (known : Finset String)
    (p : Page)
    (hmal : p.hasListContainer = false ∨ noListingsVisible p = true ∨
      p.listings = [] ∨ currentTickets hash p = []) :
    checkTickets hash known .requestError = ([], known) ∧
    checkTickets hash known .otherError = ([], known) ∧
    checkTickets hash known (.page p) = ([], ∅) :=
  ⟨rfl, rfl, checkTickets_page_reset hash known p hmal⟩

/-- Witness for `fetch_failure_policy` at a concrete input: a page whose
list container exists but whose no-listings marker is visible. -/
theorem fetch_failure_policy_witness :
    checkTickets (fun s => s) {"a"} .requestError = ([], {"a"}) ∧
    checkTickets (fun s => s) {"a"} .otherError = ([], {"a"}) ∧
    checkTickets (fun s => s) {"a"}
        (.page ⟨true, some "display: block", []⟩) = ([], ∅) :=
  fetch_failure_policy (fun s => s) {"a"} ⟨true, some "display: block", []⟩
    (by decide)

/-- Counterexample to claim C5 as stated: with prior known-set `{"a"}`, a
malformed page (no list container) does not preserve the known-set — it
resets it to the empty set. -/
theorem fetch_failure_preserves_counterexample :
    (checkTickets (fun s => s) {"a"} (.page ⟨false, none, []⟩)).2 = ∅ ∧
    (∅ : Finset String) ≠ {"a"} := by decide

/-- Claim C6 (confirmed).  A successful check on a page with a non-empty
current ticket list, performed while the known-set is empty, returns no new
listings, sets the known-set to exactly the current id-set, and the monitor
cycle emits no notification event and leaves `tickets_found` unchanged. -/
theorem baseline_check_silent (hash : String → String) (p : Page)
    (subs : List Subscriber) (adminEmail : Option String) (firstDibs : Bool)
    (delay : Nat) (deliver : String → Bool) (tc tf : Nat)
    (hs : p.hasListContainer = true) (hn : noListingsVisible p = false)
    (hc : currentTickets hash p ≠ []) :
    checkTickets hash (∅ : Finset String) (.page p) = ([], currentIds hash p) ∧
    (monitorCycle hash ∅ (.page p) subs adminEmail firstDibs delay deliver
        tc tf).events = [] ∧
    (monitorCycle hash ∅ (.page p) subs adminEmail firstDibs delay deliver
        tc tf).ticketsFound = tf := by
  have h := checkTickets_page_baseline hash p hs hn hc
  exact ⟨h, by simp [monitorCycle, h], by simp [monitorCycle, h]⟩

/-- Witness for `baseline_check_silent` at a concrete input. -/
theorem baseline_check_silent_witness :
    checkTickets (fun s => s) (∅ : Finset String)
        (.page ⟨true, none, [⟨some "x", none⟩, ⟨some "y", none⟩]⟩) =
      ([], currentIds (fun s => s)
        ⟨true, none, [⟨some "x", none⟩, ⟨some "y", none⟩]⟩) ∧
    (monitorCycle (fun s => s) ∅
        (.page ⟨true, none, [⟨some "x", none⟩, ⟨some "y", none⟩]⟩)
        [⟨"fan@example.com", "F", "T"⟩] (some "admin@example.com") true 90
        (fun _ => true) 3 5).events = [] ∧
    (monitorCycle (fun s => s) ∅
        (.page ⟨true, none, [⟨some "x", none⟩, ⟨some "y", none⟩]⟩)
        [⟨"fan@example.com", "F", "T"⟩] (some "admin@example.com") true 90
        (fun _ => true) 3 5).ticketsFound = 5 :=
  baseline_check_silent (fun s => s)
    ⟨true, none, [⟨some "x", none⟩, ⟨some "y", none⟩]⟩
    [⟨"fan@example.com", "F", "T"⟩] (some "admin@example.com") true 90
    (fun _ => true) 3 5 rfl rfl (by decide)

/-- Claim C10 (confirmed).  `check_tickets` is total at its interface: both
exception outcomes and every early-reset page shape produce a defined result
whose returned list is empty, so a failed cycle is indistinguishable from a
no-new-tickets cycle in the return value. -/
theorem checkTickets_failure_paths_return_nil (hash : String → String)
    (known : Finset String) (p : Page)
    (hfail : p.hasListContainer = false ∨ noListingsVisible p = true ∨
      p.listings = [] ∨ currentTickets hash p = []) :
    (checkTickets hash known .requestError).1 = [] ∧
    (checkTickets hash known .otherError).1 = [] ∧
    (checkTickets hash known (.page p)).1 = [] :=
  ⟨rfl, rfl, by rw [checkTickets_page_reset hash known p hfail]⟩

/-- Witness for `checkTickets_failure_paths_return_nil` at a concrete
input: a page whose only listing has no extractable details. -/
theorem checkTickets_failure_paths_return_nil_witness :
    (checkTickets (fun s => s) {"a"} .requestError).1 = [] ∧
    (checkTickets (fun s => s) {"a"} .otherError).1 = [] ∧
    (checkTickets (fun s => s) {"a"} (.page ⟨true, none, [⟨none, some "£1"⟩]⟩)).1 = [] :=
  checkTickets_failure_paths_return_nil (fun s => s) {"a"}
    ⟨true, none, [⟨none, some "£1"⟩]⟩ (by decide)

/-- Claim C2 (code bug).  The one-off new-subscriber check calls the same
`check_tickets` on the same `known_tickets` the monitor loop uses, so it does
mutate the loop's known-set: with an empty known-set and one available
listing "x", the call sets the known-set to `{"x"}` (stealing the loop's
baseline) — and, contradicting the code's own comment that it "just returns
the list of available tickets", no welcome-with-tickets email is attempted
although a ticket is available. -/
theorem oneoff_check_mutates_known :
    (notifyNewSubscriberOfCurrentTickets (fun s => s) ∅
        (.page ⟨true, none, [⟨some "x", none⟩]⟩) (fun _ => true)
        "new@example.com").1 = {"x"} ∧
    ({"x"} : Finset String) ≠ (∅ : Finset String) ∧
    (notifyNewSubscriberOfCurrentTickets (fun s => s) ∅
        (.page ⟨true, none, [⟨some "x", none⟩]⟩) (fun _ => true)
        "new@example.com").2 = false := by decide

/-- Claim C3 (corrected).  Purge-then-reappear holds only when the middle
cycle itself reports no new tickets (so the intersection branch of line 235
runs and drops the vanished id) and the pruned known-set stays non-empty (so
the reappearance cycle is not a baseline): then the reappearing listing is
reported as new.  When the middle cycle contains any new id, line 232 keeps
the vanished id in the known-set and the reappearance is silent. -/
theorem purge_reappear_reported (hash : String → String) (K : Finset String)
    (p1 p2 : Page) (x : String) (t : Ticket) (hk : K ≠ ∅)
    (_hxK : x ∈ K)
    (hs1 : p1.hasListContainer = true) (hn1 : noListingsVisible p1 = false)
    (hc1 : currentTickets hash p1 ≠ [])
    (hsub : currentIds hash p1 ⊆ K)
    (hx1 : x ∉ currentIds hash p1)
    (hne : K ∩ currentIds hash p1 ≠ ∅)
    (hs2 : p2.hasListContainer = true) (hn2 : noListingsVisible p2 = false)
    (ht : t ∈ currentTickets hash p2) (htid : t.id = x) :
    t ∈ (checkTickets hash (checkTickets hash K (.page p1)).2 (.page p2)).1 := by
  have h1 : (checkTickets hash K (.page p1)).2 = K ∩ currentIds hash p1 := by
    rw [checkTickets_page_diff hash K p1 hs1 hn1 hc1 hk,
      if_pos (Finset.sdiff_eq_empty_iff_subset.mpr hsub)]
  rw [h1]
  have hc2 : currentTickets hash p2 ≠ [] := fun h => by simp [h] at ht
  have hx2 : x ∈ currentIds hash p2 := by
    rw [currentIds, List.mem_toFinset, List.mem_map]
    exact ⟨t, ht, htid⟩
  have hxnk : x ∉ K ∩ currentIds hash p1 :=
    fun h => hx1 (Finset.mem_inter.mp h).2
  have hne2 : currentIds hash p2 \ (K ∩ currentIds hash p1) ≠ ∅ := by
    intro h
    exact hxnk (Finset.sdiff_eq_empty_iff_subset.mp h hx2)
  rw [checkTickets_page_diff hash _ p2 hs2 hn2 hc2 hne, if_neg hne2]
  simp only [List.mem_filter, decide_eq_true_eq]
  exact ⟨ht, by rw [htid]; exact Finset.mem_sdiff.mpr ⟨hx2, hxnk⟩⟩

/-- Witness for `purge_reappear_reported` at a concrete input: known-set
starts as the pair of ids x and z; x is absent with z still present in the
middle cycle; x reappears and is reported. -/
theorem purge_reappear_reported_witness :
    (⟨"x", "x", "Price not found"⟩ : Ticket) ∈
      (checkTickets (fun s => s)
        (checkTickets (fun s => s) {"x", "z"}
          (.page ⟨true, none, [⟨some "z", none⟩]⟩)).2
        (.page ⟨true, none, [⟨some "x", none⟩, ⟨some "z", none⟩]⟩)).1 :=
  purge_reappear_reported (fun s => s) {"x", "z"}
    ⟨true, none, [⟨some "z", none⟩]⟩
    ⟨true, none, [⟨some "x", none⟩, ⟨some "z", none⟩]⟩
    "x" ⟨"x", "x", "Price not found"⟩ (by decide) (by decide) rfl rfl
    (by decide) (by decide) (by decide) (by decide) rfl rfl (by decide) rfl

/-- Counterexample to claim C3 as stated: x is known at cycle N; at cycle
N+1 the current set is the singleton y (x absent, a new id appears, check
successful and non-baseline), after which the known-set is the pair x, y; at
cycle N+2 a listing with id x is present again (check successful and
non-baseline), yet the check returns the empty list — x is not reported. -/
theorem purge_reappear_counterexample :
    ("x" : String) ∈ ({"x"} : Finset String) ∧
    "x" ∉ currentIds (fun s => s) ⟨true, none, [⟨some "y", none⟩]⟩ ∧
    (checkTickets (fun s => s) {"x"}
        (.page ⟨true, none, [⟨some "y", none⟩]⟩)).2 = {"x", "y"} ∧
    "x" ∈ currentIds (fun s => s)
      ⟨true, none, [⟨some "x", none⟩, ⟨some "y", none⟩]⟩ ∧
    (checkTickets (fun s => s) {"x", "y"}
        (.page ⟨true, none, [⟨some "x", none⟩, ⟨some "y", none⟩]⟩)).1 = [] := by
  decide

/-- Claim C4 (corrected).  With first dibs enabled and a truthy admin email,
one batch produces: the admin send attempt first, then the sleep of exactly
the configured delay, then one broadcast send attempt per subscriber whose
lowercased email differs from the lowercased admin email — no non-admin
send precedes the sleep.  The exclusion compares `email.lower()` only (lines
290-291); the trimmed-and-lowercased comparison stated in the claim holds
only when the configured admin email carries no surrounding whitespace. -/
theorem first_dibs_sequencing (subs : List Subscriber) (a : String)
    (delay : Nat) (deliver : String → Bool) (ha : a ≠ "") :
    notifyEvents subs (some a) true delay deliver =
      Event.adminSend a (deliver a) :: Event.sleep delay ::
        (subs.filter (fun s => pyLower s.email != pyLower a)).map
          (fun s => Event.send s.email (deliver s.email)) := by
  simp only [notifyEvents, if_neg ha, sendEmailNotifications_trace,
    sendRecipients, List.map_map]
  rfl

/-- Witness for `first_dibs_sequencing` at a concrete input. -/
theorem first_dibs_sequencing_witness :
    notifyEvents [⟨"admin@x.y", "A", "T"⟩, ⟨"fan@x.y", "F", "T"⟩]
        (some "admin@x.y") true 90 (fun _ => true) =
      Event.adminSend "admin@x.y" true :: Event.sleep 90 ::
        (([⟨"admin@x.y", "A", "T"⟩, ⟨"fan@x.y", "F", "T"⟩] : List Subscriber).filter
            (fun s => pyLower s.email != pyLower "admin@x.y")).map
          (fun s => Event.send s.email true) :=
  first_dibs_sequencing [⟨"admin@x.y", "A", "T"⟩, ⟨"fan@x.y", "F", "T"⟩]
    "admin@x.y" 90 (fun _ => true) (by decide)

/-- Counterexample to claim C4 as stated: the admin email is configured with
a trailing space; the sole subscriber's trimmed-and-lowercased email equals
the admin's trimmed-and-lowercased email, so the claim says the broadcast
excludes this subscriber — but the code's lowercase-only comparison keeps
them and the broadcast send to them is attempted. -/
theorem first_dibs_normalized_exclusion_counterexample :
    notifyEvents [⟨"a@b.c", "N", "T"⟩] (some "a@b.c ") true 90
        (fun _ => true) =
      [Event.adminSend "a@b.c " true, Event.sleep 90,
        Event.send "a@b.c" true] ∧
    normalizeEmail "a@b.c" = normalizeEmail "a@b.c " := by decide

/-- Claim C7 (confirmed).  Within one batch, each recipient's send is
attempted independently: for every recipient sequence and every pattern of
per-recipient delivery failures, the trace of attempts covers every computed
recipient exactly once, in order — a failure is counted as failed and does
not prevent later attempts, with no retry and no rollback. -/
theorem send_failures_isolated (subs : List Subscriber)
    (adminEmail : Option String) (excludeAdmin : Bool)
    (deliver : String → Bool) (h1 : subs ≠ [])
    (h2 : sendRecipients subs adminEmail excludeAdmin ≠ []) :
    (sendEmailNotifications subs adminEmail excludeAdmin deliver).1 =
      (sendRecipients subs adminEmail excludeAdmin).map
        (fun s => (s.email, deliver s.email)) ∧
    (sendEmailNotifications subs adminEmail excludeAdmin deliver).2 =
      some ((sendRecipients subs adminEmail excludeAdmin).countP
          (fun s => deliver s.email),
        (sendRecipients subs adminEmail excludeAdmin).countP
          (fun s => !deliver s.email)) := by
  refine ⟨sendEmailNotifications_trace _ _ _ _, ?_⟩
  simp [sendEmailNotifications, List.isEmpty_iff, h1, h2, sendLoop_spec]

/-- Witness for `send_failures_isolated` at a concrete input: the send to
the first recipient fails, the second is still attempted; one success and
one failure are counted. -/
theorem send_failures_isolated_witness :
    (sendEmailNotifications
        [⟨"u1@x.y", "A", "T"⟩, ⟨"u2@x.y", "B", "T"⟩] none false
        (fun e => e != "u1@x.y")).1 =
      (sendRecipients [⟨"u1@x.y", "A", "T"⟩, ⟨"u2@x.y", "B", "T"⟩] none
          false).map (fun s => (s.email, s.email != "u1@x.y")) ∧
    (sendEmailNotifications
        [⟨"u1@x.y", "A", "T"⟩, ⟨"u2@x.y", "B", "T"⟩] none false
        (fun e => e != "u1@x.y")).2 =
      some ((sendRecipients [⟨"u1@x.y", "A", "T"⟩, ⟨"u2@x.y", "B", "T"⟩]
          none false).countP (fun s => s.email != "u1@x.y"),
        (sendRecipients [⟨"u1@x.y", "A", "T"⟩, ⟨"u2@x.y", "B", "T"⟩] none
          false).countP (fun s => !(s.email != "u1@x.y"))) :=
  send_failures_isolated [⟨"u1@x.y", "A", "T"⟩, ⟨"u2@x.y", "B", "T"⟩] none
    false (fun e => e != "u1@x.y") (by decide) (by decide)

/-- Claim C8 (corrected).  `add_subscriber` applies no syntactic check at
all: an email failing the spec's basic local@domain.tld test is still
accepted — normalized, appended and reported as a success — whenever its
normalisation is not already subscribed; the only rejection is the
duplicate one. -/
theorem addSubscriber_accepts_invalid_format (subs : List Subscriber)
    (email name now : String) (_hbad : basicEmailFormatOk email = false)
    (hfresh : ∀ s ∈ subs, s.email ≠ normalizeEmail email) :
    addSubscriber subs email name now =
      (subs ++ [⟨normalizeEmail email, name, now⟩], true,
        "Successfully subscribed!") := by
  have h : subs.any (fun s => s.email = normalizeEmail email) = false := by
    simp only [List.any_eq_false, decide_eq_true_eq]
    exact hfresh
  simp [addSubscriber, h]

/-- Witness for `addSubscriber_accepts_invalid_format` at a concrete
input. -/
theorem addSubscriber_accepts_invalid_format_witness :
    addSubscriber [⟨"ok@x.y", "A", "T"⟩] "Not An Email" "B" "T2" =
      ([⟨"ok@x.y", "A", "T"⟩] ++
        [⟨normalizeEmail "Not An Email", "B", "T2"⟩], true,
        "Successfully subscribed!") :=
  addSubscriber_accepts_invalid_format [⟨"ok@x.y", "A", "T"⟩] "Not An Email"
    "B" "T2" (by decide) (by decide)

/-- Counterexample to claim C8 as stated: "notanemail" fails the basic
local@domain.tld check, yet `add_subscriber` accepts it and appends it to
the persisted list instead of rejecting with an invalid-format result. -/
theorem invalid_format_rejected_counterexample :
    basicEmailFormatOk "notanemail" = false ∧
    addSubscriber [] "notanemail" "" "2026-01-01T00:00:00" =
      ([⟨"notanemail", "", "2026-01-01T00:00:00"⟩], true,
        "Successfully subscribed!") := by decide

/-- In whatever way `add_subscriber` resolves an addition, the normalized
form of the added email is afterwards present in the list. -/
theorem normalized_mem_after_add (subs : List Subscriber)
    (email name now : String) :
    (addSubscriber subs email name now).1.any
      (fun s => s.email = normalizeEmail email) = true := by
  by_cases h : subs.any (fun s => s.email = normalizeEmail email)
  · simp [addSubscriber, h]
  · simp [addSubscriber, h]

/-- Claim C9 (confirmed).  Subscriber identity is the normalized (trimmed,
lowercased) email: after adding any address, adding a second address with
the same normalisation fails with the duplicate message and leaves the
subscriber list — hence the count — unchanged. -/
theorem duplicate_normalized_add_rejected (subs : List Subscriber)
    (e1 e2 n1 n2 t1 t2 : String)
    (hnorm : normalizeEmail e1 = normalizeEmail e2) :
    addSubscriber (addSubscriber subs e1 n1 t1).1 e2 n2 t2 =
      ((addSubscriber subs e1 n1 t1).1, false, "Email already subscribed") := by
  have hmem := normalized_mem_after_add subs e1 n1 t1
  rw [hnorm] at hmem
  generalize (addSubscriber subs e1 n1 t1).1 = l at hmem ⊢
  simp [addSubscriber, hmem]

/-- Witness for `duplicate_normalized_add_rejected` at the spec's own
example pair: "Foo@Bar.COM " then "foo@bar.com". -/
theorem duplicate_normalized_add_rejected_witness :
    addSubscriber (addSubscriber [] "Foo@Bar.COM " "A" "T1").1
        "foo@bar.com" "B" "T2" =
      ((addSubscriber [] "Foo@Bar.COM " "A" "T1").1, false,
        "Email already subscribed") :=
  duplicate_normalized_add_rejected [] "Foo@Bar.COM " "foo@bar.com" "A" "B"
    "T1" "T2" (by decide)

end Oasis
